import Mathlib

/-!
Verification development for `lms/djangoapps/courseware/module_render.py`.

The file shallowly embeds the data model and the operations of the module:
`get_module`, `modx_dispatch`, `xqueue_callback`, `get_section` and
`toc_for_course`.  Persisted records (`StudentModule`) and the per-request
record cache (`StudentModuleCache`) live in `models.py`, which is not part
of the sources; they are modelled from the spec.  The xmodule runtime
(`descriptor.xmodule_constructor(system)(instance_state, shared_state)`,
`get_instance_state`, `get_shared_state`, `get_score`, `max_score`,
`handle_ajax`, `get_display_items`) is external to this file as well and is
abstracted as an `XModuleBehavior`.  The `I4xSystem` plumbing (ajax urls,
tracking, template rendering) and the `get_html` wrappers
(`replace_static_urls`, `add_histogram`) only affect HTML rendering, never
the persisted records, and are elided.
-/

/-- Modelled from the spec: the Django user attached to a request or fetched
by id.  Only the fields module_render reads are kept: `id` (the seed / the
`student` foreign key) and `is_authenticated()` (guest detection). -/
structure User where
  id : Nat
  is_authenticated : Bool
deriving Repr, DecidableEq

/-- The `{score, total}` dictionary returned by `get_score()`.  A returned
dictionary is non-empty, hence truthy; `None` is falsy, so Python's
`if instance.get_score():` is `Option.isSome` here. -/
structure Score where
  score : Int
  total : Int
deriving Repr, DecidableEq

/-- Modelled from the spec: a persisted per-student state record
("a user's per-module state blob and grade, optionally a state blob shared
across modules with a common key").  Fields mirror the constructor calls in
`get_module`: `student`, `module_type`, `module_state_key`, `state`,
`max_grade`; `grade` starts out null. -/
structure StudentModule where
  student : Nat
  module_type : String
  module_state_key : String
  state : Option String := none
  grade : Option Int := none
  max_grade : Option Int := none
deriving Repr, DecidableEq

/-- Modelled from the spec: `StudentModuleCache` holds the records already
persisted for one student; it is just the fetched record list here. -/
abbrev StudentModuleCache := List StudentModule

/-- Modelled from the spec: `StudentModuleCache.lookup(category, key)`
returns the (unique, per the invariant) record whose `module_type` and
`module_state_key` match, or `None`; modelled as first match. -/
def smcLookup (cache : StudentModuleCache) (category key : String) :
    Option StudentModule :=
  cache.find? (fun m => m.module_type == category && m.module_state_key == key)

/-- `instance_module.state if instance_module is not None else None`. -/
def stateOf : Option StudentModule → Option String
  | some m => m.state
  | none => none

/-- The slice of the modulestore descriptor that module_render reads:
`descriptor.category`, `descriptor.location.url()` and the optional
`shared_state_key` attribute. -/
structure Descriptor where
  category : String
  locationUrl : String
  shared_state_key : Option String
deriving Repr, DecidableEq

/-- The xmodule runtime behaviour, abstracting
`descriptor.xmodule_constructor(system)(instance_state, shared_state)` and
the methods module_render calls on the resulting instance.  `σ` is the
module's internal state; `handle_ajax` may raise (the `Except` error) and
otherwise returns the ajax payload and the mutated internal state.  `id`
is `module.id`, used as `module_state_key` for a fresh instance record. -/
structure XModuleBehavior (σ : Type) where
  init : Option String → Option String → σ
  id : String
  get_instance_state : σ → String
  get_shared_state : σ → String
  get_score : σ → Option Score
  max_score : σ → Option Int
  handle_ajax : σ → String → List (String × String) → Except String (String × σ)

/-- Result of `get_module`: the tuple
`(module, instance_module, shared_module, category)` from the source, plus
the updated cache and the list of `.save()` calls performed (ghost data
recording the database writes). -/
structure GetModuleResult (σ : Type) where
  module : σ
  instance_module : Option StudentModule
  shared_module : Option StudentModule
  category : String
  cache : StudentModuleCache
  saves : List StudentModule

/-- `get_module(user, request, location, student_module_cache)`: look up the
instance record by `(category, location.url())` and the shared record by
`(category, shared_state_key)` when a shared key exists, construct the
module from the found states, and — only for an authenticated user — create,
save and append to the cache any record that was missing.  The fresh
instance record carries `module.get_instance_state()` and `max_score()`;
the fresh shared record carries `module.get_shared_state()`. -/
def get_module {σ : Type} (B : XModuleBehavior σ) (user : User)
    (desc : Descriptor) (student_module_cache : StudentModuleCache) :
    GetModuleResult σ :=
  let instance_module := smcLookup student_module_cache desc.category desc.locationUrl
  let shared_module :=
    match desc.shared_state_key with
    | some key => smcLookup student_module_cache desc.category key
    | none => none
  let instance_state := stateOf instance_module
  let shared_state := stateOf shared_module
  let module := B.init instance_state shared_state
  if user.is_authenticated then
    let step1 : StudentModule × StudentModuleCache × List StudentModule :=
      match instance_module with
      | some m => (m, student_module_cache, [])
      | none =>
        let m : StudentModule :=
          { student := user.id, module_type := desc.category,
            module_state_key := B.id,
            state := some (B.get_instance_state module),
            grade := none,
            max_grade := B.max_score module }
        (m, student_module_cache ++ [m], [m])
    match shared_module, desc.shared_state_key with
    | none, some key =>
      let m : StudentModule :=
        { student := user.id, module_type := desc.category,
          module_state_key := key,
          state := some (B.get_shared_state module),
          grade := none, max_grade := none }
      { module := module, instance_module := some step1.1,
        shared_module := some m, category := desc.category,
        cache := step1.2.1 ++ [m], saves := step1.2.2 ++ [m] }
    | sm, _ =>
      { module := module, instance_module := some step1.1,
        shared_module := sm, category := desc.category,
        cache := step1.2.1, saves := step1.2.2 }
  else
    { module := module, instance_module := instance_module,
      shared_module := shared_module, category := desc.category,
      cache := student_module_cache, saves := [] }

/-- Python `str.partition(sep)` for a one-character separator, on the
character list: split at the first occurrence; `(s, [], [])` when absent. -/
def charPartition : List Char → Char → List Char × List Char × List Char
  | [], _ => ([], [], [])
  | c :: rest, sep =>
    if c = sep then ([], [sep], rest)
    else
      let r := charPartition rest sep
      (c :: r.1, r.2.1, r.2.2)

/-- `dispatch.partition('?')` as used by `modx_dispatch`. -/
def strPartition (s : String) (sep : Char) : String × String × String :=
  let r := charPartition s.data sep
  (String.mk r.1, String.mk r.2.1, String.mk r.2.2)

/-- Modelled from the spec: `QueryDict.pop(key)[0]` on the copied POST data —
the first value bound to `key` together with the dictionary with `key`
removed, or `None` when the key is absent (the `KeyError` path). -/
def popKey (l : List (String × String)) (k : String) :
    Option (String × List (String × String)) :=
  match l.find? (fun p => p.1 == k) with
  | some p => some (p.2, l.filter (fun q => q.1 != k))
  | none => none

/-- Modelled from the spec: `get.update(\x7bkey: value\x7d)` — rebind `key`. -/
def setKey (l : List (String × String)) (k v : String) :
    List (String × String) :=
  l.filter (fun q => q.1 != k) ++ [(k, v)]

/-- First value bound to a key in a parsed dictionary (`header['queuekey']`);
`none` is Python's uncaught `KeyError`. -/
def dictGet (l : List (String × String)) (k : String) : Option String :=
  (l.find? (fun p => p.1 == k)).map (fun p => p.2)

/-- The exceptions the two view functions can raise. -/
inductive ViewError where
  | http404
  | ajaxError (msg : String)
  | invalidFormat (msg : String)
  | doesNotExist
  | keyError (key : String)
deriving Repr, DecidableEq

/-- The successful outcome of `modx_dispatch`, with ghost fields recording
the locals the source computes (`oldgrade`, `old_instance_state`,
`old_shared_state`, the stripped dispatch string, the ajax return) and the
final record values with whether each was saved. -/
structure ModxOk (σ : Type) where
  body : String
  ajaxReturn : String
  dispatched : String
  oldgrade : Option Int
  old_instance_state : Option String
  old_shared_state : Option String
  instance_module : StudentModule
  instanceSaved : Bool
  shared_module : Option StudentModule
  sharedSaved : Bool
  moduleAfter : σ

/-- The successful outcome of `xqueue_callback` (no shared-record write,
empty response body). -/
structure XqueueOk (σ : Type) where
  body : String
  ajaxReturn : String
  oldgrade : Option Int
  old_instance_state : Option String
  instance_module : StudentModule
  instanceSaved : Bool
  shared_module : Option StudentModule
  moduleAfter : σ

/-- One run of a view: every `.save()` call in order, every log line, and
the response or the exception raised. -/
structure EndpointRun (ω : Type) where
  saves : List StudentModule
  logs : List String
  outcome : Except ViewError ω

/-- The save-state-back block both views share:
`instance_module.state = instance.get_instance_state()` followed by
`if instance.get_score(): instance_module.grade = instance.get_score()['score']`. -/
def save_state_back {σ : Type} (B : XModuleBehavior σ) (moduleAfter : σ)
    (instance_module : StudentModule) : StudentModule :=
  let instance_module :=
    { instance_module with state := some (B.get_instance_state moduleAfter) }
  match B.get_score moduleAfter with
  | some score => { instance_module with grade := some score.score }
  | none => instance_module

/-- `modx_dispatch(request, dispatch, id)`: strip the query part of
`dispatch`, build the cache and call `get_module`; 404 when no instance
record; remember old grade/state, run `handle_ajax` (logging and re-raising
its exceptions), write the state back and save the instance record only
when grade or state changed, save the shared record only when its state
changed, and answer with the ajax return value. -/
def modx_dispatch {σ : Type} (B : XModuleBehavior σ) (requestUser : User)
    (post : List (String × String)) (dispatch : String) (desc : Descriptor)
    (student_records : StudentModuleCache) : EndpointRun (ModxOk σ) :=
  let dispatch2 := (strPartition dispatch '?').1
  let gm := get_module B requestUser desc student_records
  match gm.instance_module with
  | none =>
    { saves := gm.saves,
      logs := ["Could not find module for user"],
      outcome := Except.error ViewError.http404 }
  | some instance_module =>
    let oldgrade := instance_module.grade
    let old_instance_state := instance_module.state
    let old_shared_state := stateOf gm.shared_module
    match B.handle_ajax gm.module dispatch2 post with
    | Except.error e =>
      { saves := gm.saves,
        logs := ["error processing ajax call"],
        outcome := Except.error (ViewError.ajaxError e) }
    | Except.ok (ajax_return, moduleAfter) =>
      let instance_module := save_state_back B moduleAfter instance_module
      let instSaves :=
        if instance_module.grade ≠ oldgrade ∨ instance_module.state ≠ old_instance_state
        then [instance_module] else []
      match gm.shared_module with
      | some shared_module =>
        let shared_module :=
          { shared_module with state := some (B.get_shared_state moduleAfter) }
        let shSaves :=
          if shared_module.state ≠ old_shared_state then [shared_module] else []
        { saves := gm.saves ++ instSaves ++ shSaves,
          logs := [],
          outcome := Except.ok
            { body := ajax_return, ajaxReturn := ajax_return,
              dispatched := dispatch2, oldgrade := oldgrade,
              old_instance_state := old_instance_state,
              old_shared_state := old_shared_state,
              instance_module := instance_module,
              instanceSaved := decide (instance_module.grade ≠ oldgrade ∨
                instance_module.state ≠ old_instance_state),
              shared_module := some shared_module,
              sharedSaved := decide (shared_module.state ≠ old_shared_state),
              moduleAfter := moduleAfter } }
      | none =>
        { saves := gm.saves ++ instSaves,
          logs := [],
          outcome := Except.ok
            { body := ajax_return, ajaxReturn := ajax_return,
              dispatched := dispatch2, oldgrade := oldgrade,
              old_instance_state := old_instance_state,
              old_shared_state := old_shared_state,
              instance_module := instance_module,
              instanceSaved := decide (instance_module.grade ≠ oldgrade ∨
                instance_module.state ≠ old_instance_state),
              shared_module := none, sharedSaved := false,
              moduleAfter := moduleAfter } }

/-- `xqueue_callback(request, userid, id, dispatch)`: pop and parse the
`xqueue_header` POST field (any failure there raises the invalid-format
exception), fetch the user identified by `userid`, build the cache from
that user's records — but call `get_module` with `request.user`, as the
source does — 404 when no instance record; transfer `queuekey` into the
POST data, run `handle_ajax` (logging and re-raising its exceptions),
write the state back, save the instance record only when grade or state
changed, and answer with an empty body.  `parseJson` models `json.loads`
restricted to string-valued objects; `users` models `User.objects.get`;
`db` models the records `StudentModuleCache` fetches per student id. -/
def xqueue_callback {σ : Type} (B : XModuleBehavior σ)
    (parseJson : String → Option (List (String × String)))
    (users : Nat → Option User)
    (db : Nat → StudentModuleCache)
    (requestUser : User) (userid : Nat) (dispatch : String)
    (desc : Descriptor) (post : List (String × String)) :
    EndpointRun (XqueueOk σ) :=
  match popKey post "xqueue_header" with
  | none =>
    { saves := [], logs := [],
      outcome := Except.error
        (ViewError.invalidFormat "Error in xqueue_callback: Invalid return format") }
  | some (headerRaw, get1) =>
    match parseJson headerRaw with
    | none =>
      { saves := [], logs := [],
        outcome := Except.error
          (ViewError.invalidFormat "Error in xqueue_callback: Invalid return format") }
    | some header =>
      match users userid with
      | none =>
        { saves := [], logs := [],
          outcome := Except.error ViewError.doesNotExist }
      | some user =>
        let student_module_cache := db user.id
        let gm := get_module B requestUser desc student_module_cache
        match gm.instance_module with
        | none =>
          { saves := gm.saves,
            logs := ["Could not find module for user"],
            outcome := Except.error ViewError.http404 }
        | some instance_module =>
          let oldgrade := instance_module.grade
          let old_instance_state := instance_module.state
          match dictGet header "queuekey" with
          | none =>
            { saves := gm.saves, logs := [],
              outcome := Except.error (ViewError.keyError "queuekey") }
          | some queuekey =>
            let get2 := setKey get1 "queuekey" queuekey
            match B.handle_ajax gm.module dispatch get2 with
            | Except.error e =>
              { saves := gm.saves,
                logs := ["error processing ajax call"],
                outcome := Except.error (ViewError.ajaxError e) }
            | Except.ok (ajax_return, moduleAfter) =>
              let instance_module := save_state_back B moduleAfter instance_module
              let instSaves :=
                if instance_module.grade ≠ oldgrade ∨
                   instance_module.state ≠ old_instance_state
                then [instance_module] else []
              { saves := gm.saves ++ instSaves,
                logs := [],
                outcome := Except.ok
                  { body := "", ajaxReturn := ajax_return,
                    oldgrade := oldgrade,
                    old_instance_state := old_instance_state,
                    instance_module := instance_module,
                    instanceSaved := decide (instance_module.grade ≠ oldgrade ∨
                      instance_module.state ≠ old_instance_state),
                    shared_module := gm.shared_module,
                    moduleAfter := moduleAfter } }

/-- A module descriptor tree as `get_section` and `toc_for_course` walk it:
a metadata dictionary and the child list. -/
inductive XTree : Type where
  | mk (metadata : List (String × String)) (children : List XTree)

/-- The metadata dictionary of a tree node. -/
def XTree.metadata : XTree → List (String × String)
  | .mk md _ => md

/-- The children of a tree node. -/
def XTree.children : XTree → List XTree
  | .mk _ cs => cs

/-- `descriptor.get_children()`. -/
def XTree.get_children (t : XTree) : List XTree :=
  t.children

/-- Modelled from the spec: `module.get_display_items()` (xmodule code
outside this file) yields the displayable child items in order; modelled as
the child list. -/
def get_display_items (t : XTree) : List XTree :=
  t.children

/-- Python `metadata.get(key)`: first binding or `None`. -/
def metadataGet (md : List (String × String)) (k : String) : Option String :=
  (md.find? (fun p => p.1 == k)).map (fun p => p.2)

/-- Python `metadata.get(key, default)`. -/
def metadataGetD (md : List (String × String)) (k d : String) : String :=
  (metadataGet md k).getD d

/-- The `for ... if ... break` loops of `get_section`: first child whose
`metadata.get('display_name')` equals the wanted name. -/
def findByDisplayName (children : List XTree) (name : String) : Option XTree :=
  match children with
  | [] => none
  | c :: rest =>
    if metadataGet c.metadata "display_name" = some name then some c
    else findByDisplayName rest name

/-- `get_section(course_module, chapter, section)`: `None` for a `None`
course; otherwise scan the children for the chapter by display name, then
that chapter's children for the section by display name. -/
def get_section (course_module : Option XTree) (chapter sectionName : String) :
    Option XTree :=
  match course_module with
  | none => none
  | some cm =>
    match findByDisplayName cm.get_children chapter with
    | none => none
    | some chapter_module =>
      findByDisplayName chapter_module.get_children sectionName

/-- One SECTIONS entry of the table of contents. -/
structure TocSection where
  name : Option String
  format : String
  due : String
  active : Bool
deriving Repr, DecidableEq

/-- One chapter entry of the table of contents. -/
structure TocChapter where
  name : Option String
  sections : List TocSection
  active : Bool
deriving Repr, DecidableEq

/-- The dictionary `toc_for_course` appends per section. -/
def toc_section_entry (chapter sectionItem : XTree)
    (active_chapter active_section : String) : TocSection :=
  { name := metadataGet sectionItem.metadata "display_name",
    format := metadataGetD sectionItem.metadata "format" "",
    due := metadataGetD sectionItem.metadata "due" "",
    active := metadataGet chapter.metadata "display_name" == some active_chapter &&
      metadataGet sectionItem.metadata "display_name" == some active_section }

/-- The inner `for section in chapter.get_display_items()` loop. -/
def toc_sections_loop (chapter : XTree) (items : List XTree)
    (active_chapter active_section : String) : List TocSection :=
  match items with
  | [] => []
  | s :: rest =>
    toc_section_entry chapter s active_chapter active_section ::
      toc_sections_loop chapter rest active_chapter active_section

/-- The dictionary `toc_for_course` appends per chapter. -/
def toc_chapter_entry (chapter : XTree) (active_chapter active_section : String) :
    TocChapter :=
  { name := metadataGet chapter.metadata "display_name",
    sections := toc_sections_loop chapter (get_display_items chapter)
      active_chapter active_section,
    active := metadataGet chapter.metadata "display_name" == some active_chapter }

/-- The outer `for chapter in course.get_display_items()` loop. -/
def toc_chapters_loop (items : List XTree) (active_chapter active_section : String) :
    List TocChapter :=
  match items with
  | [] => []
  | c :: rest =>
    toc_chapter_entry c active_chapter active_section ::
      toc_chapters_loop rest active_chapter active_section

/-- `toc_for_course(user, request, course, active_chapter, active_section)`:
after re-fetching the course module through `get_module` (which does not
change the course tree), build one entry per displayed chapter, each with
one entry per displayed section, marking active flags by comparing display
names with the two arguments. -/
def toc_for_course (course : XTree) (active_chapter active_section : String) :
    List TocChapter :=
  toc_chapters_loop (get_display_items course) active_chapter active_section

/-- The fresh instance record `get_module` builds for an authenticated user
with no existing record. -/
def freshInstanceRecord {σ : Type} (B : XModuleBehavior σ) (user : User)
    (desc : Descriptor) (module : σ) : StudentModule :=
  { student := user.id, module_type := desc.category,
    module_state_key := B.id,
    state := some (B.get_instance_state module),
    grade := none,
    max_grade := B.max_score module }

/-- The fresh shared record `get_module` builds for an authenticated user
with a shared key but no existing shared record. -/
def freshSharedRecord {σ : Type} (B : XModuleBehavior σ) (user : User)
    (desc : Descriptor) (key : String) (module : σ) : StudentModule :=
  { student := user.id, module_type := desc.category,
    module_state_key := key,
    state := some (B.get_shared_state module),
    grade := none, max_grade := none }

/-- The shared-record lookup `get_module` performs. -/
def sharedLookup (desc : Descriptor) (cache : StudentModuleCache) :
    Option StudentModule :=
  match desc.shared_state_key with
  | some key => smcLookup cache desc.category key
  | none => none

/-- The module state `get_module` constructs. -/
def builtModule {σ : Type} (B : XModuleBehavior σ) (desc : Descriptor)
    (cache : StudentModuleCache) : σ :=
  B.init (stateOf (smcLookup cache desc.category desc.locationUrl))
    (stateOf (sharedLookup desc cache))

theorem get_module_module_eq {σ : Type} (B : XModuleBehavior σ) (u : User)
    (desc : Descriptor) (c : StudentModuleCache) :
    (get_module B u desc c).module = builtModule B desc c := by
  cases hk : desc.shared_state_key with
  | none =>
    cases ha : u.is_authenticated <;>
      cases hI : smcLookup c desc.category desc.locationUrl <;>
        simp [get_module, builtModule, sharedLookup, hk, ha, hI]
  | some key =>
    cases ha : u.is_authenticated <;>
      cases hI : smcLookup c desc.category desc.locationUrl <;>
        cases hS : smcLookup c desc.category key <;>
          simp [get_module, builtModule, sharedLookup, hk, ha, hI, hS]

theorem get_module_not_auth {σ : Type} (B : XModuleBehavior σ) (u : User)
    (desc : Descriptor) (c : StudentModuleCache)
    (h : u.is_authenticated = false) :
    get_module B u desc c =
      { module := builtModule B desc c,
        instance_module := smcLookup c desc.category desc.locationUrl,
        shared_module := sharedLookup desc c,
        category := desc.category, cache := c, saves := [] } := by
  unfold get_module builtModule sharedLookup
  simp [h]

theorem get_module_auth_isSome {σ : Type} (B : XModuleBehavior σ) (u : User)
    (desc : Descriptor) (c : StudentModuleCache)
    (h : u.is_authenticated = true) :
    (get_module B u desc c).instance_module.isSome := by
  unfold get_module
  simp only [h, if_true]
  split <;> simp

theorem get_module_instance_none {σ : Type} (B : XModuleBehavior σ) (u : User)
    (desc : Descriptor) (c : StudentModuleCache)
    (h : (get_module B u desc c).instance_module = none) :
    u.is_authenticated = false ∧
      smcLookup c desc.category desc.locationUrl = none ∧
      (get_module B u desc c).saves = [] ∧
      (get_module B u desc c).cache = c := by
  cases ha : u.is_authenticated with
  | true =>
    have := get_module_auth_isSome B u desc c ha
    rw [h] at this
    simp at this
  | false =>
    rw [get_module_not_auth B u desc c ha] at h ⊢
    exact ⟨rfl, h, rfl, rfl⟩

theorem get_module_cache_append {σ : Type} (B : XModuleBehavior σ) (u : User)
    (desc : Descriptor) (c : StudentModuleCache) :
    (get_module B u desc c).cache = c ++ (get_module B u desc c).saves := by
  cases hk : desc.shared_state_key with
  | none =>
    cases ha : u.is_authenticated <;>
      cases hI : smcLookup c desc.category desc.locationUrl <;>
        simp [get_module, hk, ha, hI]
  | some key =>
    cases ha : u.is_authenticated <;>
      cases hI : smcLookup c desc.category desc.locationUrl <;>
        cases hS : smcLookup c desc.category key <;>
          simp [get_module, hk, ha, hI, hS]

theorem get_module_inst_found {σ : Type} (B : XModuleBehavior σ) (u : User)
    (desc : Descriptor) (c : StudentModuleCache) (m : StudentModule)
    (hI : smcLookup c desc.category desc.locationUrl = some m) :
    (get_module B u desc c).instance_module = some m := by
  cases hk : desc.shared_state_key with
  | none =>
    cases ha : u.is_authenticated <;>
      simp [get_module, hk, ha, hI]
  | some key =>
    cases ha : u.is_authenticated <;>
      cases hS : smcLookup c desc.category key <;>
        simp [get_module, hk, ha, hI, hS]

theorem get_module_inst_created {σ : Type} (B : XModuleBehavior σ) (u : User)
    (desc : Descriptor) (c : StudentModuleCache)
    (ha : u.is_authenticated = true)
    (hI : smcLookup c desc.category desc.locationUrl = none) :
    (get_module B u desc c).instance_module =
        some (freshInstanceRecord B u desc (builtModule B desc c)) ∧
      freshInstanceRecord B u desc (builtModule B desc c) ∈
        (get_module B u desc c).saves ∧
      freshInstanceRecord B u desc (builtModule B desc c) ∈
        (get_module B u desc c).cache := by
  cases hk : desc.shared_state_key with
  | none =>
    simp [get_module, freshInstanceRecord, builtModule, sharedLookup, hk, ha, hI]
  | some key =>
    cases hS : smcLookup c desc.category key <;>
      simp [get_module, freshInstanceRecord, builtModule, sharedLookup, hk, ha, hI, hS]

theorem get_module_inst_not_created {σ : Type} (B : XModuleBehavior σ) (u : User)
    (desc : Descriptor) (c : StudentModuleCache) (m : StudentModule)
    (ha : u.is_authenticated = true)
    (hI : smcLookup c desc.category desc.locationUrl = some m) :
    (get_module B u desc c).instance_module = some m ∧
      ∀ x ∈ (get_module B u desc c).saves,
        ∃ key, desc.shared_state_key = some key ∧
          x = freshSharedRecord B u desc key (builtModule B desc c) := by
  cases hk : desc.shared_state_key with
  | none =>
    simp [get_module, hk, ha, hI]
  | some key =>
    cases hS : smcLookup c desc.category key <;>
      simp [get_module, freshSharedRecord, builtModule, sharedLookup, hk, ha, hI, hS]

theorem get_module_shared_nokey {σ : Type} (B : XModuleBehavior σ) (u : User)
    (desc : Descriptor) (c : StudentModuleCache)
    (hk : desc.shared_state_key = none) :
    (get_module B u desc c).shared_module = none := by
  cases ha : u.is_authenticated <;>
    cases hI : smcLookup c desc.category desc.locationUrl <;>
      simp [get_module, hk, ha, hI]

theorem get_module_shared_found {σ : Type} (B : XModuleBehavior σ) (u : User)
    (desc : Descriptor) (c : StudentModuleCache) (key : String) (m : StudentModule)
    (hk : desc.shared_state_key = some key)
    (hS : smcLookup c desc.category key = some m) :
    (get_module B u desc c).shared_module = some m := by
  cases ha : u.is_authenticated <;>
    cases hI : smcLookup c desc.category desc.locationUrl <;>
      simp [get_module, hk, ha, hI, hS]

theorem get_module_shared_created {σ : Type} (B : XModuleBehavior σ) (u : User)
    (desc : Descriptor) (c : StudentModuleCache) (key : String)
    (ha : u.is_authenticated = true)
    (hk : desc.shared_state_key = some key)
    (hS : smcLookup c desc.category key = none) :
    (get_module B u desc c).shared_module =
        some (freshSharedRecord B u desc key (builtModule B desc c)) ∧
      freshSharedRecord B u desc key (builtModule B desc c) ∈
        (get_module B u desc c).saves ∧
      freshSharedRecord B u desc key (builtModule B desc c) ∈
        (get_module B u desc c).cache := by
  cases hI : smcLookup c desc.category desc.locationUrl <;>
    simp [get_module, freshSharedRecord, builtModule, sharedLookup, hk, ha, hI, hS]

theorem save_state_back_state {σ : Type} (B : XModuleBehavior σ) (m : σ)
    (im : StudentModule) :
    (save_state_back B m im).state = some (B.get_instance_state m) := by
  unfold save_state_back
  cases B.get_score m <;> rfl

theorem save_state_back_grade_some {σ : Type} (B : XModuleBehavior σ) (m : σ)
    (im : StudentModule) (sc : Score) (h : B.get_score m = some sc) :
    (save_state_back B m im).grade = some sc.score := by
  unfold save_state_back
  rw [h]

theorem save_state_back_grade_none {σ : Type} (B : XModuleBehavior σ) (m : σ)
    (im : StudentModule) (h : B.get_score m = none) :
    (save_state_back B m im).grade = im.grade := by
  unfold save_state_back
  rw [h]

theorem save_state_back_fixed {σ : Type} (B : XModuleBehavior σ) (m : σ)
    (im : StudentModule) :
    (save_state_back B m im).student = im.student ∧
      (save_state_back B m im).module_type = im.module_type ∧
      (save_state_back B m im).module_state_key = im.module_state_key ∧
      (save_state_back B m im).max_grade = im.max_grade := by
  unfold save_state_back
  cases B.get_score m <;> exact ⟨rfl, rfl, rfl, rfl⟩

theorem charPartition_fst (l : List Char) (sep : Char) :
    (charPartition l sep).1 = l.takeWhile (fun ch => ch != sep) := by
  induction l with
  | nil => rfl
  | cons c rest ih =>
    by_cases h : c = sep
    · simp [charPartition, List.takeWhile, h]
    · have h2 : (c != sep) = true := bne_iff_ne.mpr h
      simp [charPartition, List.takeWhile, h, h2, ih]

theorem charPartition_fst_no_sep (l : List Char) (sep : Char) :
    sep ∉ (charPartition l sep).1 := by
  rw [charPartition_fst]
  intro hmem
  have := List.mem_takeWhile_imp hmem
  simp at this

theorem charPartition_fst_idem (l : List Char) (sep : Char) :
    charPartition (charPartition l sep).1 sep = ((charPartition l sep).1, [], []) := by
  rw [charPartition_fst]
  induction l with
  | nil => rfl
  | cons c rest ih =>
    by_cases h : c = sep
    · simp [List.takeWhile, h, charPartition]
    · have h2 : (c != sep) = true := bne_iff_ne.mpr h
      simp [List.takeWhile, h, h2, charPartition, ih]

theorem findByDisplayName_eq_find (cs : List XTree) (name : String) :
    findByDisplayName cs name =
      cs.find? (fun c => metadataGet c.metadata "display_name" == some name) := by
  induction cs with
  | nil => rfl
  | cons c rest ih =>
    by_cases h : metadataGet c.metadata "display_name" = some name
    · simp [findByDisplayName, List.find?, h]
    · simp only [findByDisplayName, List.find?, if_neg h]
      rw [beq_eq_false_iff_ne.mpr h]
      exact ih

theorem modx_dispatch_404 {σ : Type} (B : XModuleBehavior σ) (u : User)
    (post : List (String × String)) (d : String) (desc : Descriptor)
    (c : StudentModuleCache)
    (hI : (get_module B u desc c).instance_module = none) :
    modx_dispatch B u post d desc c =
      { saves := (get_module B u desc c).saves,
        logs := ["Could not find module for user"],
        outcome := Except.error ViewError.http404 } := by
  simp only [modx_dispatch]
  rw [hI]

theorem modx_dispatch_ajax_raises {σ : Type} (B : XModuleBehavior σ) (u : User)
    (post : List (String × String)) (d : String) (desc : Descriptor)
    (c : StudentModuleCache) (im : StudentModule) (e : String)
    (hI : (get_module B u desc c).instance_module = some im)
    (hA : B.handle_ajax (get_module B u desc c).module ((strPartition d '?').1) post =
      Except.error e) :
    modx_dispatch B u post d desc c =
      { saves := (get_module B u desc c).saves,
        logs := ["error processing ajax call"],
        outcome := Except.error (ViewError.ajaxError e) } := by
  simp only [modx_dispatch]
  rw [hI]
  simp only []
  rw [hA]

theorem modx_dispatch_ok_noshared {σ : Type} (B : XModuleBehavior σ) (u : User)
    (post : List (String × String)) (d : String) (desc : Descriptor)
    (c : StudentModuleCache) (im : StudentModule) (ret : String) (m2 : σ)
    (hI : (get_module B u desc c).instance_module = some im)
    (hS : (get_module B u desc c).shared_module = none)
    (hA : B.handle_ajax (get_module B u desc c).module ((strPartition d '?').1) post =
      Except.ok (ret, m2)) :
    modx_dispatch B u post d desc c =
      { saves := (get_module B u desc c).saves ++
          (if (save_state_back B m2 im).grade ≠ im.grade ∨
              (save_state_back B m2 im).state ≠ im.state
           then [save_state_back B m2 im] else []),
        logs := [],
        outcome := Except.ok
          { body := ret, ajaxReturn := ret,
            dispatched := (strPartition d '?').1,
            oldgrade := im.grade, old_instance_state := im.state,
            old_shared_state := none,
            instance_module := save_state_back B m2 im,
            instanceSaved := decide ((save_state_back B m2 im).grade ≠ im.grade ∨
              (save_state_back B m2 im).state ≠ im.state),
            shared_module := none, sharedSaved := false,
            moduleAfter := m2 } } := by
  simp only [modx_dispatch]
  rw [hI]
  simp only []
  rw [hA]
  simp only []
  rw [hS]
  rfl

theorem modx_dispatch_ok_shared {σ : Type} (B : XModuleBehavior σ) (u : User)
    (post : List (String × String)) (d : String) (desc : Descriptor)
    (c : StudentModuleCache) (im sm : StudentModule) (ret : String) (m2 : σ)
    (hI : (get_module B u desc c).instance_module = some im)
    (hS : (get_module B u desc c).shared_module = some sm)
    (hA : B.handle_ajax (get_module B u desc c).module ((strPartition d '?').1) post =
      Except.ok (ret, m2)) :
    modx_dispatch B u post d desc c =
      { saves := (get_module B u desc c).saves ++
          (if (save_state_back B m2 im).grade ≠ im.grade ∨
              (save_state_back B m2 im).state ≠ im.state
           then [save_state_back B m2 im] else []) ++
          (if some (B.get_shared_state m2) ≠ sm.state
           then [{ sm with state := some (B.get_shared_state m2) }] else []),
        logs := [],
        outcome := Except.ok
          { body := ret, ajaxReturn := ret,
            dispatched := (strPartition d '?').1,
            oldgrade := im.grade, old_instance_state := im.state,
            old_shared_state := sm.state,
            instance_module := save_state_back B m2 im,
            instanceSaved := decide ((save_state_back B m2 im).grade ≠ im.grade ∨
              (save_state_back B m2 im).state ≠ im.state),
            shared_module := some { sm with state := some (B.get_shared_state m2) },
            sharedSaved := decide (some (B.get_shared_state m2) ≠ sm.state),
            moduleAfter := m2 } } := by
  simp only [modx_dispatch]
  rw [hI]
  simp only []
  rw [hA]
  simp only []
  rw [hS]
  rfl

theorem xqueue_callback_404 {σ : Type} (B : XModuleBehavior σ)
    (pj : String → Option (List (String × String)))
    (users : Nat → Option User) (db : Nat → StudentModuleCache)
    (ru : User) (uid : Nat) (d : String) (desc : Descriptor)
    (post : List (String × String))
    (hv : String) (g1 : List (String × String))
    (header : List (String × String)) (tu : User)
    (hpop : popKey post "xqueue_header" = some (hv, g1))
    (hparse : pj hv = some header)
    (husers : users uid = some tu)
    (hI : (get_module B ru desc (db tu.id)).instance_module = none) :
    xqueue_callback B pj users db ru uid d desc post =
      { saves := (get_module B ru desc (db tu.id)).saves,
        logs := ["Could not find module for user"],
        outcome := Except.error ViewError.http404 } := by
  simp only [xqueue_callback]
  rw [hpop]
  simp only []
  rw [hparse]
  simp only []
  rw [husers]
  simp only []
  rw [hI]

theorem xqueue_callback_ajax_raises {σ : Type} (B : XModuleBehavior σ)
    (pj : String → Option (List (String × String)))
    (users : Nat → Option User) (db : Nat → StudentModuleCache)
    (ru : User) (uid : Nat) (d : String) (desc : Descriptor)
    (post : List (String × String))
    (hv : String) (g1 : List (String × String))
    (header : List (String × String)) (tu : User) (im : StudentModule)
    (qk : String) (e : String)
    (hpop : popKey post "xqueue_header" = some (hv, g1))
    (hparse : pj hv = some header)
    (husers : users uid = some tu)
    (hI : (get_module B ru desc (db tu.id)).instance_module = some im)
    (hqk : dictGet header "queuekey" = some qk)
    (hA : B.handle_ajax (get_module B ru desc (db tu.id)).module d
      (setKey g1 "queuekey" qk) = Except.error e) :
    xqueue_callback B pj users db ru uid d desc post =
      { saves := (get_module B ru desc (db tu.id)).saves,
        logs := ["error processing ajax call"],
        outcome := Except.error (ViewError.ajaxError e) } := by
  simp only [xqueue_callback]
  rw [hpop]
  simp only []
  rw [hparse]
  simp only []
  rw [husers]
  simp only []
  rw [hI]
  simp only []
  rw [hqk]
  simp only []
  rw [hA]

theorem xqueue_callback_ok {σ : Type} (B : XModuleBehavior σ)
    (pj : String → Option (List (String × String)))
    (users : Nat → Option User) (db : Nat → StudentModuleCache)
    (ru : User) (uid : Nat) (d : String) (desc : Descriptor)
    (post : List (String × String))
    (hv : String) (g1 : List (String × String))
    (header : List (String × String)) (tu : User) (im : StudentModule)
    (qk : String) (ret : String) (m2 : σ)
    (hpop : popKey post "xqueue_header" = some (hv, g1))
    (hparse : pj hv = some header)
    (husers : users uid = some tu)
    (hI : (get_module B ru desc (db tu.id)).instance_module = some im)
    (hqk : dictGet header "queuekey" = some qk)
    (hA : B.handle_ajax (get_module B ru desc (db tu.id)).module d
      (setKey g1 "queuekey" qk) = Except.ok (ret, m2)) :
    xqueue_callback B pj users db ru uid d desc post =
      { saves := (get_module B ru desc (db tu.id)).saves ++
          (if (save_state_back B m2 im).grade ≠ im.grade ∨
              (save_state_back B m2 im).state ≠ im.state
           then [save_state_back B m2 im] else []),
        logs := [],
        outcome := Except.ok
          { body := "", ajaxReturn := ret,
            oldgrade := im.grade, old_instance_state := im.state,
            instance_module := save_state_back B m2 im,
            instanceSaved := decide ((save_state_back B m2 im).grade ≠ im.grade ∨
              (save_state_back B m2 im).state ≠ im.state),
            shared_module := (get_module B ru desc (db tu.id)).shared_module,
            moduleAfter := m2 } } := by
  simp only [xqueue_callback]
  rw [hpop]
  simp only []
  rw [hparse]
  simp only []
  rw [husers]
  simp only []
  rw [hI]
  simp only []
  rw [hqk]
  simp only []
  rw [hA]

theorem modx_dispatch_ok_inv {σ : Type} (B : XModuleBehavior σ) (u : User)
    (post : List (String × String)) (d : String) (desc : Descriptor)
    (c : StudentModuleCache) (r : ModxOk σ)
    (h : (modx_dispatch B u post d desc c).outcome = Except.ok r) :
    ∃ im ret m2,
      (get_module B u desc c).instance_module = some im ∧
      B.handle_ajax (get_module B u desc c).module ((strPartition d '?').1) post =
        Except.ok (ret, m2) ∧
      r.body = ret ∧ r.ajaxReturn = ret ∧
      r.dispatched = (strPartition d '?').1 ∧
      r.oldgrade = im.grade ∧ r.old_instance_state = im.state ∧
      r.instance_module = save_state_back B m2 im ∧
      r.moduleAfter = m2 ∧
      (modx_dispatch B u post d desc c).saves =
        (get_module B u desc c).saves ++
          (if r.instance_module.grade ≠ r.oldgrade ∨
              r.instance_module.state ≠ r.old_instance_state
           then [r.instance_module] else []) ++
          (match r.shared_module with
           | some sm2 => if sm2.state ≠ r.old_shared_state then [sm2] else []
           | none => []) ∧
      ((∃ sm, (get_module B u desc c).shared_module = some sm ∧
          r.shared_module = some { sm with state := some (B.get_shared_state m2) } ∧
          r.old_shared_state = sm.state) ∨
        ((get_module B u desc c).shared_module = none ∧
          r.shared_module = none ∧ r.old_shared_state = none)) := by
  cases hI : (get_module B u desc c).instance_module with
  | none =>
    rw [modx_dispatch_404 B u post d desc c hI] at h
    simp at h
  | some im =>
    cases hA : B.handle_ajax (get_module B u desc c).module
        ((strPartition d '?').1) post with
    | error e =>
      rw [modx_dispatch_ajax_raises B u post d desc c im e hI hA] at h
      simp at h
    | ok p =>
      obtain ⟨ret, m2⟩ := p
      cases hS : (get_module B u desc c).shared_module with
      | none =>
        rw [modx_dispatch_ok_noshared B u post d desc c im ret m2 hI hS hA] at h
        simp only [Except.ok.injEq] at h
        subst h
        refine ⟨im, ret, m2, rfl, rfl, rfl, rfl, rfl, rfl, rfl, rfl, rfl, ?_, ?_⟩
        · rw [modx_dispatch_ok_noshared B u post d desc c im ret m2 hI hS hA]
          simp
        · exact Or.inr ⟨rfl, rfl, rfl⟩
      | some sm =>
        rw [modx_dispatch_ok_shared B u post d desc c im sm ret m2 hI hS hA] at h
        simp only [Except.ok.injEq] at h
        subst h
        refine ⟨im, ret, m2, rfl, rfl, rfl, rfl, rfl, rfl, rfl, rfl, rfl, ?_, ?_⟩
        · rw [modx_dispatch_ok_shared B u post d desc c im sm ret m2 hI hS hA]
        · exact Or.inl ⟨sm, rfl, rfl, rfl⟩

theorem xqueue_callback_ok_inv {σ : Type} (B : XModuleBehavior σ)
    (pj : String → Option (List (String × String)))
    (users : Nat → Option User) (db : Nat → StudentModuleCache)
    (ru : User) (uid : Nat) (d : String) (desc : Descriptor)
    (post : List (String × String)) (r : XqueueOk σ)
    (h : (xqueue_callback B pj users db ru uid d desc post).outcome = Except.ok r) :
    ∃ hv g1 header tu im qk ret m2,
      popKey post "xqueue_header" = some (hv, g1) ∧
      pj hv = some header ∧
      users uid = some tu ∧
      (get_module B ru desc (db tu.id)).instance_module = some im ∧
      dictGet header "queuekey" = some qk ∧
      B.handle_ajax (get_module B ru desc (db tu.id)).module d
        (setKey g1 "queuekey" qk) = Except.ok (ret, m2) ∧
      r.body = "" ∧ r.ajaxReturn = ret ∧
      r.oldgrade = im.grade ∧ r.old_instance_state = im.state ∧
      r.instance_module = save_state_back B m2 im ∧
      r.moduleAfter = m2 ∧
      (xqueue_callback B pj users db ru uid d desc post).saves =
        (get_module B ru desc (db tu.id)).saves ++
          (if r.instance_module.grade ≠ r.oldgrade ∨
              r.instance_module.state ≠ r.old_instance_state
           then [r.instance_module] else []) := by
  cases hpop : popKey post "xqueue_header" with
  | none =>
    simp only [xqueue_callback] at h
    rw [hpop] at h
    simp at h
  | some p =>
    obtain ⟨hv, g1⟩ := p
    cases hparse : pj hv with
    | none =>
      simp only [xqueue_callback] at h
      rw [hpop] at h
      simp only [] at h
      rw [hparse] at h
      simp at h
    | some header =>
      cases husers : users uid with
      | none =>
        simp only [xqueue_callback] at h
        rw [hpop] at h
        simp only [] at h
        rw [hparse] at h
        simp only [] at h
        rw [husers] at h
        simp at h
      | some tu =>
        cases hI : (get_module B ru desc (db tu.id)).instance_module with
        | none =>
          rw [xqueue_callback_404 B pj users db ru uid d desc post hv g1 header tu
            hpop hparse husers hI] at h
          simp at h
        | some im =>
          cases hqk : dictGet header "queuekey" with
          | none =>
            simp only [xqueue_callback] at h
            rw [hpop] at h
            simp only [] at h
            rw [hparse] at h
            simp only [] at h
            rw [husers] at h
            simp only [] at h
            rw [hI] at h
            simp only [] at h
            rw [hqk] at h
            simp at h
          | some qk =>
            cases hA : B.handle_ajax (get_module B ru desc (db tu.id)).module d
                (setKey g1 "queuekey" qk) with
            | error e =>
              rw [xqueue_callback_ajax_raises B pj users db ru uid d desc post hv g1
                header tu im qk e hpop hparse husers hI hqk hA] at h
              simp at h
            | ok p2 =>
              obtain ⟨ret, m2⟩ := p2
              rw [xqueue_callback_ok B pj users db ru uid d desc post hv g1 header tu
                im qk ret m2 hpop hparse husers hI hqk hA] at h
              simp only [Except.ok.injEq] at h
              subst h
              refine ⟨hv, g1, header, tu, im, qk, ret, m2, rfl, hparse, rfl, hI, hqk,
                hA, rfl, rfl, rfl, rfl, rfl, rfl, ?_⟩
              rw [xqueue_callback_ok B pj users db ru uid d desc post hv g1 header tu
                im qk ret m2 hpop hparse husers hI hqk hA]

/-- Claim C6: `get_section` performs a linear search: it returns the first
child of `course_module` (in child order) whose metadata `display_name`
equals the chapter name, then within that child the first of its children
whose `display_name` equals the section name; it returns `None` whenever
`course_module` is `None`, no child matches the chapter name, or no
grandchild matches the section name (`List.find?` is exactly
first-match-or-none). -/
theorem C6_get_section_linear_search (cm : XTree)
    (chapterName sectionName : String) :
    get_section none chapterName sectionName = none ∧
    get_section (some cm) chapterName sectionName =
      (cm.get_children.find? (fun ch =>
          metadataGet ch.metadata "display_name" == some chapterName)).bind
        (fun chm => chm.get_children.find? (fun s =>
          metadataGet s.metadata "display_name" == some sectionName)) := by
  constructor
  · rfl
  · unfold get_section
    simp only []
    rw [findByDisplayName_eq_find]
    cases hc : cm.get_children.find? (fun ch =>
        metadataGet ch.metadata "display_name" == some chapterName) with
    | none => simp
    | some chm => simp [findByDisplayName_eq_find]

/-- Claim C9: the command `modx_dispatch` forwards to the module's
`handle_ajax` is the portion of the dispatch string strictly before the
first question mark (the whole string when none is present); the part after
the first question mark never reaches the module. -/
theorem C9_dispatch_partition (σ : Type) (B : XModuleBehavior σ) (u : User)
    (post : List (String × String)) (d : String) (desc : Descriptor)
    (c : StudentModuleCache) (r : ModxOk σ) :
    modx_dispatch B u post d desc c =
      modx_dispatch B u post
        (String.mk (d.data.takeWhile (fun ch => ch != '?'))) desc c ∧
    ((modx_dispatch B u post d desc c).outcome = Except.ok r →
      r.dispatched = String.mk (d.data.takeWhile (fun ch => ch != '?')) ∧
      '?' ∉ r.dispatched.data ∧
      B.handle_ajax (get_module B u desc c).module r.dispatched post =
        Except.ok (r.ajaxReturn, r.moduleAfter)) := by
  have hfst : (strPartition d '?').1 =
      String.mk (d.data.takeWhile (fun ch => ch != '?')) := by
    show String.mk (charPartition d.data '?').1 = _
    rw [charPartition_fst]
  have hfst2 : (strPartition (String.mk (d.data.takeWhile (fun ch => ch != '?'))) '?').1 =
      String.mk (d.data.takeWhile (fun ch => ch != '?')) := by
    unfold strPartition
    have := charPartition_fst_idem d.data '?'
    rw [charPartition_fst] at this
    show String.mk (charPartition (d.data.takeWhile (fun ch => ch != '?')) '?').1 = _
    rw [this]
  constructor
  · simp only [modx_dispatch]
    rw [hfst, hfst2]
  · intro h
    obtain ⟨im, ret, m2, hI, hA, hb, har, hd, hog, hos, him, hma, hsaves, hsh⟩ :=
      modx_dispatch_ok_inv B u post d desc c r h
    refine ⟨hd.trans hfst, ?_, ?_⟩
    · rw [hd]
      show '?' ∉ (String.mk (charPartition d.data '?').1).data
      exact charPartition_fst_no_sep d.data '?'
    · rw [hd, har, hma]
      exact hA

/-- Claim C10: on success `xqueue_callback` returns a response with an
empty body, discarding the value `handle_ajax` returned, whereas
`modx_dispatch` returns the `handle_ajax` return value as the response
body. -/
theorem C10_response_bodies :
    (∀ (σ : Type) (B : XModuleBehavior σ) (u : User)
      (post : List (String × String)) (d : String) (desc : Descriptor)
      (c : StudentModuleCache) (r : ModxOk σ),
      (modx_dispatch B u post d desc c).outcome = Except.ok r →
        r.body = r.ajaxReturn ∧
        B.handle_ajax (get_module B u desc c).module r.dispatched post =
          Except.ok (r.body, r.moduleAfter)) ∧
    (∀ (σ : Type) (B : XModuleBehavior σ)
      (pj : String → Option (List (String × String)))
      (users : Nat → Option User) (db : Nat → StudentModuleCache)
      (ru : User) (uid : Nat) (d : String) (desc : Descriptor)
      (post : List (String × String)) (r : XqueueOk σ),
      (xqueue_callback B pj users db ru uid d desc post).outcome = Except.ok r →
        r.body = "" ∧
        ∃ tu g1 qk, users uid = some tu ∧
          B.handle_ajax (get_module B ru desc (db tu.id)).module d
            (setKey g1 "queuekey" qk) = Except.ok (r.ajaxReturn, r.moduleAfter)) := by
  constructor
  · intro σ B u post d desc c r h
    obtain ⟨im, ret, m2, hI, hA, hb, har, hd, hog, hos, him, hma, hsaves, hsh⟩ :=
      modx_dispatch_ok_inv B u post d desc c r h
    refine ⟨hb.trans har.symm, ?_⟩
    rw [hd, hb, hma]
    exact hA
  · intro σ B pj users db ru uid d desc post r h
    obtain ⟨hv, g1, header, tu, im, qk, ret, m2, hpop, hparse, husers, hI, hqk, hA,
      hb, har, hog, hos, him, hma, hsaves⟩ :=
      xqueue_callback_ok_inv B pj users db ru uid d desc post r h
    refine ⟨hb, tu, g1, qk, husers, ?_⟩
    rw [har, hma]
    exact hA

theorem toc_sections_loop_length (chapter : XTree) (items : List XTree)
    (ac asec : String) :
    (toc_sections_loop chapter items ac asec).length = items.length := by
  induction items with
  | nil => rfl
  | cons s rest ih => simp [toc_sections_loop, ih]

theorem toc_sections_loop_get (chapter : XTree) (items : List XTree)
    (ac asec : String) :
    ∀ (j : Nat) (hj : j < items.length)
      (hj' : j < (toc_sections_loop chapter items ac asec).length),
      (toc_sections_loop chapter items ac asec).get ⟨j, hj'⟩ =
        toc_section_entry chapter (items.get ⟨j, hj⟩) ac asec := by
  induction items with
  | nil => intro j hj _; exact absurd hj (by simp)
  | cons s rest ih =>
    intro j hj hj'
    cases j with
    | zero => rfl
    | succ n =>
      simp only [toc_sections_loop, List.get_cons_succ]
      exact ih n (by simpa using hj) (by simpa [toc_sections_loop_length] using hj)

theorem toc_chapters_loop_length (items : List XTree) (ac asec : String) :
    (toc_chapters_loop items ac asec).length = items.length := by
  induction items with
  | nil => rfl
  | cons chs rest ih => simp [toc_chapters_loop, ih]

theorem toc_chapters_loop_get (items : List XTree) (ac asec : String) :
    ∀ (i : Nat) (hi : i < items.length)
      (hi' : i < (toc_chapters_loop items ac asec).length),
      (toc_chapters_loop items ac asec).get ⟨i, hi'⟩ =
        toc_chapter_entry (items.get ⟨i, hi⟩) ac asec := by
  induction items with
  | nil => intro i hi _; exact absurd hi (by simp)
  | cons chs rest ih =>
    intro i hi hi'
    cases i with
    | zero => rfl
    | succ n =>
      simp only [toc_chapters_loop, List.get_cons_succ]
      exact ih n (by simpa using hi) (by simpa [toc_chapters_loop_length] using hi)

/-- Claim C8: in the table of contents from `toc_for_course`, a chapter
entry's active flag is true exactly when that chapter's display name equals
the `active_chapter` argument, and a section entry's active flag is true
exactly when both its chapter's display name equals `active_chapter` and
its own display name equals `active_section`; every chapter returned by
`get_display_items` produces an entry (the lengths and names agree
entry-by-entry, with no filtering of chapters named "hidden"). -/
theorem C8_toc_active_flags (course : XTree) (ac asec : String) :
    (toc_for_course course ac asec).length = (get_display_items course).length ∧
    ∀ (i : Nat) (hi : i < (get_display_items course).length)
      (hi' : i < (toc_for_course course ac asec).length),
      ((toc_for_course course ac asec).get ⟨i, hi'⟩).name =
        metadataGet ((get_display_items course).get ⟨i, hi⟩).metadata
          "display_name" ∧
      (((toc_for_course course ac asec).get ⟨i, hi'⟩).active = true ↔
        metadataGet ((get_display_items course).get ⟨i, hi⟩).metadata
          "display_name" = some ac) ∧
      ((toc_for_course course ac asec).get ⟨i, hi'⟩).sections.length =
        (get_display_items ((get_display_items course).get ⟨i, hi⟩)).length ∧
      ∀ (j : Nat)
        (hj : j < (get_display_items ((get_display_items course).get ⟨i, hi⟩)).length)
        (hj' : j < ((toc_for_course course ac asec).get ⟨i, hi'⟩).sections.length),
        ((((toc_for_course course ac asec).get ⟨i, hi'⟩).sections).get ⟨j, hj'⟩).name =
          metadataGet ((get_display_items ((get_display_items course).get
            ⟨i, hi⟩)).get ⟨j, hj⟩).metadata "display_name" ∧
        (((((toc_for_course course ac asec).get ⟨i, hi'⟩).sections).get
            ⟨j, hj'⟩).active = true ↔
          (metadataGet ((get_display_items course).get ⟨i, hi⟩).metadata
              "display_name" = some ac ∧
            metadataGet ((get_display_items ((get_display_items course).get
              ⟨i, hi⟩)).get ⟨j, hj⟩).metadata "display_name" = some asec)) := by
  constructor
  · exact toc_chapters_loop_length (get_display_items course) ac asec
  · intro i hi hi'
    have hentry : (toc_for_course course ac asec).get ⟨i, hi'⟩ =
        toc_chapter_entry ((get_display_items course).get ⟨i, hi⟩) ac asec :=
      toc_chapters_loop_get (get_display_items course) ac asec i hi hi'
    rw [hentry]
    refine ⟨rfl, ?_, ?_, ?_⟩
    · simp [toc_chapter_entry]
    · exact toc_sections_loop_length _ _ ac asec
    · intro j hj hj'
      have hsec : (toc_chapter_entry ((get_display_items course).get ⟨i, hi⟩) ac
          asec).sections.get ⟨j, hj'⟩ =
          toc_section_entry ((get_display_items course).get ⟨i, hi⟩)
            ((get_display_items ((get_display_items course).get ⟨i, hi⟩)).get
              ⟨j, hj⟩) ac asec :=
        toc_sections_loop_get ((get_display_items course).get ⟨i, hi⟩)
          (get_display_items ((get_display_items course).get ⟨i, hi⟩)) ac asec j hj hj'
      rw [hsec]
      refine ⟨rfl, ?_⟩
      simp [toc_section_entry]

/-- Claim C2: in `get_module`, if the user is authenticated and the cache
lookup finds no instance record, a new `StudentModule` record is created,
saved and appended to the cache (similarly a shared record when
`shared_state_key` is set and no shared record exists); if the user is not
authenticated, no record is ever created or saved and the returned
`instance_module` / `shared_module` are just the lookup results, which may
be `None`. -/
theorem C2_lazy_record_creation (σ : Type) (B : XModuleBehavior σ) (u : User)
    (desc : Descriptor) (c : StudentModuleCache) :
    (u.is_authenticated = true →
      smcLookup c desc.category desc.locationUrl = none →
      (get_module B u desc c).instance_module =
          some (freshInstanceRecord B u desc (builtModule B desc c)) ∧
        freshInstanceRecord B u desc (builtModule B desc c) ∈
          (get_module B u desc c).saves ∧
        freshInstanceRecord B u desc (builtModule B desc c) ∈
          (get_module B u desc c).cache) ∧
    (∀ key, u.is_authenticated = true → desc.shared_state_key = some key →
      smcLookup c desc.category key = none →
      (get_module B u desc c).shared_module =
          some (freshSharedRecord B u desc key (builtModule B desc c)) ∧
        freshSharedRecord B u desc key (builtModule B desc c) ∈
          (get_module B u desc c).saves ∧
        freshSharedRecord B u desc key (builtModule B desc c) ∈
          (get_module B u desc c).cache) ∧
    (u.is_authenticated = false →
      (get_module B u desc c).saves = [] ∧
        (get_module B u desc c).cache = c ∧
        (get_module B u desc c).instance_module =
          smcLookup c desc.category desc.locationUrl ∧
        (get_module B u desc c).shared_module = sharedLookup desc c) := by
  refine ⟨?_, ?_, ?_⟩
  · intro ha hI
    exact get_module_inst_created B u desc c ha hI
  · intro key ha hk hS
    exact get_module_shared_created B u desc c key ha hk hS
  · intro ha
    rw [get_module_not_auth B u desc c ha]
    exact ⟨rfl, rfl, rfl, rfl⟩

/-- Claim C4: in both views, when `get_module` yields no instance record
the view raises `Http404` and performs no save at all; conversely when an
instance record is present the view never raises `Http404`. -/
theorem C4_missing_record_404 :
    (∀ (σ : Type) (B : XModuleBehavior σ) (u : User)
      (post : List (String × String)) (d : String) (desc : Descriptor)
      (c : StudentModuleCache),
      ((get_module B u desc c).instance_module = none →
        modx_dispatch B u post d desc c =
          { saves := [], logs := ["Could not find module for user"],
            outcome := Except.error ViewError.http404 }) ∧
      (∀ im, (get_module B u desc c).instance_module = some im →
        (modx_dispatch B u post d desc c).outcome ≠
          Except.error ViewError.http404)) ∧
    (∀ (σ : Type) (B : XModuleBehavior σ)
      (pj : String → Option (List (String × String)))
      (users : Nat → Option User) (db : Nat → StudentModuleCache)
      (ru : User) (uid : Nat) (d : String) (desc : Descriptor)
      (post : List (String × String)) (hv : String)
      (g1 : List (String × String)) (header : List (String × String)) (tu : User),
      popKey post "xqueue_header" = some (hv, g1) →
      pj hv = some header →
      users uid = some tu →
      ((get_module B ru desc (db tu.id)).instance_module = none →
        xqueue_callback B pj users db ru uid d desc post =
          { saves := [], logs := ["Could not find module for user"],
            outcome := Except.error ViewError.http404 }) ∧
      (∀ im, (get_module B ru desc (db tu.id)).instance_module = some im →
        (xqueue_callback B pj users db ru uid d desc post).outcome ≠
          Except.error ViewError.http404)) := by
  constructor
  · intro σ B u post d desc c
    constructor
    · intro hI
      rw [modx_dispatch_404 B u post d desc c hI,
        (get_module_instance_none B u desc c hI).2.2.1]
    · intro im hI
      cases hA : B.handle_ajax (get_module B u desc c).module
          ((strPartition d '?').1) post with
      | error e =>
        rw [modx_dispatch_ajax_raises B u post d desc c im e hI hA]
        simp
      | ok p =>
        obtain ⟨ret, m2⟩ := p
        cases hS : (get_module B u desc c).shared_module with
        | none =>
          rw [modx_dispatch_ok_noshared B u post d desc c im ret m2 hI hS hA]
          simp
        | some sm =>
          rw [modx_dispatch_ok_shared B u post d desc c im sm ret m2 hI hS hA]
          simp
  · intro σ B pj users db ru uid d desc post hv g1 header tu hpop hparse husers
    constructor
    · intro hI
      rw [xqueue_callback_404 B pj users db ru uid d desc post hv g1 header tu
        hpop hparse husers hI,
        (get_module_instance_none B ru desc (db tu.id) hI).2.2.1]
    · intro im hI
      cases hqk : dictGet header "queuekey" with
      | none =>
        simp only [xqueue_callback]
        rw [hpop]
        simp only []
        rw [hparse]
        simp only []
        rw [husers]
        simp only []
        rw [hI]
        simp only []
        rw [hqk]
        simp
      | some qk =>
        cases hA : B.handle_ajax (get_module B ru desc (db tu.id)).module d
            (setKey g1 "queuekey" qk) with
        | error e =>
          rw [xqueue_callback_ajax_raises B pj users db ru uid d desc post hv g1
            header tu im qk e hpop hparse husers hI hqk hA]
          simp
        | ok p =>
          obtain ⟨ret, m2⟩ := p
          rw [xqueue_callback_ok B pj users db ru uid d desc post hv g1 header tu
            im qk ret m2 hpop hparse husers hI hqk hA]
          simp

/-- Claim C5: when `handle_ajax` raises, both views log the exception and
re-raise it unchanged, and perform no save after the failure: the run's
saves are exactly the ones `get_module` already performed, so the stored
grade and state stay what they were before `handle_ajax` was called. -/
theorem C5_ajax_exception_reraised :
    (∀ (σ : Type) (B : XModuleBehavior σ) (u : User)
      (post : List (String × String)) (d : String) (desc : Descriptor)
      (c : StudentModuleCache) (im : StudentModule) (e : String),
      (get_module B u desc c).instance_module = some im →
      B.handle_ajax (get_module B u desc c).module ((strPartition d '?').1) post =
        Except.error e →
      modx_dispatch B u post d desc c =
        { saves := (get_module B u desc c).saves,
          logs := ["error processing ajax call"],
          outcome := Except.error (ViewError.ajaxError e) }) ∧
    (∀ (σ : Type) (B : XModuleBehavior σ)
      (pj : String → Option (List (String × String)))
      (users : Nat → Option User) (db : Nat → StudentModuleCache)
      (ru : User) (uid : Nat) (d : String) (desc : Descriptor)
      (post : List (String × String)) (hv : String)
      (g1 : List (String × String)) (header : List (String × String))
      (tu : User) (im : StudentModule) (qk : String) (e : String),
      popKey post "xqueue_header" = some (hv, g1) →
      pj hv = some header →
      users uid = some tu →
      (get_module B ru desc (db tu.id)).instance_module = some im →
      dictGet header "queuekey" = some qk →
      B.handle_ajax (get_module B ru desc (db tu.id)).module d
        (setKey g1 "queuekey" qk) = Except.error e →
      xqueue_callback B pj users db ru uid d desc post =
        { saves := (get_module B ru desc (db tu.id)).saves,
          logs := ["error processing ajax call"],
          outcome := Except.error (ViewError.ajaxError e) }) := by
  constructor
  · intro σ B u post d desc c im e hI hA
    exact modx_dispatch_ajax_raises B u post d desc c im e hI hA
  · intro σ B pj users db ru uid d desc post hv g1 header tu im qk e
      hpop hparse husers hI hqk hA
    exact xqueue_callback_ajax_raises B pj users db ru uid d desc post hv g1
      header tu im qk e hpop hparse husers hI hqk hA

/-- Claim C1: for every successful dispatch through `modx_dispatch` or
`xqueue_callback`, the instance record is saved if and only if its grade or
its state differs from the values it held before `handle_ajax` was called;
the state written is `get_instance_state()`, and the grade is overwritten
with `get_score()['score']` only when `get_score()` is truthy.  In
`modx_dispatch`, when a shared module exists, the shared record is saved if
and only if `get_shared_state()` differs from the shared state held before
the call. -/
theorem C1_save_iff_changed :
    (∀ (σ : Type) (B : XModuleBehavior σ) (u : User)
      (post : List (String × String)) (d : String) (desc : Descriptor)
      (c : StudentModuleCache) (r : ModxOk σ),
      (modx_dispatch B u post d desc c).outcome = Except.ok r →
        (∀ im, (get_module B u desc c).instance_module = some im →
          r.oldgrade = im.grade ∧ r.old_instance_state = im.state) ∧
        r.instance_module.state = some (B.get_instance_state r.moduleAfter) ∧
        (∀ sc, B.get_score r.moduleAfter = some sc →
          r.instance_module.grade = some sc.score) ∧
        (B.get_score r.moduleAfter = none →
          r.instance_module.grade = r.oldgrade) ∧
        (modx_dispatch B u post d desc c).saves =
          (get_module B u desc c).saves ++
            (if r.instance_module.grade ≠ r.oldgrade ∨
                r.instance_module.state ≠ r.old_instance_state
             then [r.instance_module] else []) ++
            (match r.shared_module with
             | some sm2 => if sm2.state ≠ r.old_shared_state then [sm2] else []
             | none => []) ∧
        (∀ sm, (get_module B u desc c).shared_module = some sm →
          r.shared_module =
              some { sm with state := some (B.get_shared_state r.moduleAfter) } ∧
            r.old_shared_state = sm.state) ∧
        ((get_module B u desc c).shared_module = none →
          r.shared_module = none)) ∧
    (∀ (σ : Type) (B : XModuleBehavior σ)
      (pj : String → Option (List (String × String)))
      (users : Nat → Option User) (db : Nat → StudentModuleCache)
      (ru : User) (uid : Nat) (d : String) (desc : Descriptor)
      (post : List (String × String)) (r : XqueueOk σ),
      (xqueue_callback B pj users db ru uid d desc post).outcome = Except.ok r →
        (∀ tu, users uid = some tu →
          ∀ im, (get_module B ru desc (db tu.id)).instance_module = some im →
            r.oldgrade = im.grade ∧ r.old_instance_state = im.state) ∧
        r.instance_module.state = some (B.get_instance_state r.moduleAfter) ∧
        (∀ sc, B.get_score r.moduleAfter = some sc →
          r.instance_module.grade = some sc.score) ∧
        (B.get_score r.moduleAfter = none →
          r.instance_module.grade = r.oldgrade) ∧
        (∀ tu, users uid = some tu →
          (xqueue_callback B pj users db ru uid d desc post).saves =
            (get_module B ru desc (db tu.id)).saves ++
              (if r.instance_module.grade ≠ r.oldgrade ∨
                  r.instance_module.state ≠ r.old_instance_state
               then [r.instance_module] else []))) := by
  constructor
  · intro σ B u post d desc c r h
    obtain ⟨im, ret, m2, hI, hA, hb, har, hd, hog, hos, him, hma, hsaves, hsh⟩ :=
      modx_dispatch_ok_inv B u post d desc c r h
    refine ⟨?_, ?_, ?_, ?_, hsaves, ?_, ?_⟩
    · intro im2 hI2
      rw [hI] at hI2
      obtain rfl := Option.some.injEq .. ▸ hI2
      exact ⟨hog, hos⟩
    · rw [him, hma]
      exact save_state_back_state B m2 im
    · intro sc hsc
      rw [him]
      rw [hma] at hsc
      exact save_state_back_grade_some B m2 im sc hsc
    · intro hsc
      rw [him, hog]
      rw [hma] at hsc
      exact save_state_back_grade_none B m2 im hsc
    · intro sm hS
      rcases hsh with ⟨sm0, hS0, hr, hold⟩ | ⟨hS0, _, _⟩
      · rw [hS0] at hS
        obtain rfl := Option.some.injEq .. ▸ hS
        rw [hma]
        exact ⟨hr, hold⟩
      · rw [hS0] at hS
        exact absurd hS (by simp)
    · intro hS
      rcases hsh with ⟨sm0, hS0, _, _⟩ | ⟨_, hr, _⟩
      · rw [hS0] at hS
        exact absurd hS (by simp)
      · exact hr
  · intro σ B pj users db ru uid d desc post r h
    obtain ⟨hv, g1, header, tu, im, qk, ret, m2, hpop, hparse, husers, hI, hqk, hA,
      hb, har, hog, hos, him, hma, hsaves⟩ :=
      xqueue_callback_ok_inv B pj users db ru uid d desc post r h
    refine ⟨?_, ?_, ?_, ?_, ?_⟩
    · intro tu2 husers2 im2 hI2
      rw [husers] at husers2
      obtain rfl := Option.some.injEq .. ▸ husers2
      rw [hI] at hI2
      obtain rfl := Option.some.injEq .. ▸ hI2
      exact ⟨hog, hos⟩
    · rw [him, hma]
      exact save_state_back_state B m2 im
    · intro sc hsc
      rw [him]
      rw [hma] at hsc
      exact save_state_back_grade_some B m2 im sc hsc
    · intro hsc
      rw [him, hog]
      rw [hma] at hsc
      exact save_state_back_grade_none B m2 im hsc
    · intro tu2 husers2
      rw [husers] at husers2
      obtain rfl := Option.some.injEq .. ▸ husers2
      exact hsaves

/-- The database identity of a record within one student's record set:
`(module_type, module_state_key)`. -/
def recordKey (m : StudentModule) : String × String :=
  (m.module_type, m.module_state_key)

/-- The spec's invariant, for one student's record set: at most one record
per module key and at most one per shared key. -/
def UniqueKeys (cache : StudentModuleCache) : Prop :=
  cache.Pairwise (fun a b => recordKey a ≠ recordKey b)

theorem smcLookup_none_keys (c : StudentModuleCache) (cat k : String)
    (h : smcLookup c cat k = none) :
    ∀ m ∈ c, recordKey m ≠ (cat, k) := by
  intro m hm heq
  unfold smcLookup at h
  rw [List.find?_eq_none] at h
  have h2 := h m hm
  simp only [Bool.and_eq_true, beq_iff_eq] at h2
  exact h2 ⟨congrArg Prod.fst heq, congrArg Prod.snd heq⟩

theorem smcLookup_mem (c : StudentModuleCache) (cat k : String)
    (m : StudentModule) (h : smcLookup c cat k = some m) : m ∈ c :=
  List.mem_of_find?_eq_some h

theorem uniqueKeys_append_single (c : StudentModuleCache) (x : StudentModule)
    (hu : UniqueKeys c) (hx : ∀ a ∈ c, recordKey a ≠ recordKey x) :
    UniqueKeys (c ++ [x]) := by
  unfold UniqueKeys at hu ⊢
  rw [List.pairwise_append]
  refine ⟨hu, by simp, ?_⟩
  intro a ha b hb
  simp only [List.mem_singleton] at hb
  subst hb
  exact hx a ha

/-- Claim C3 (amended): provided the module key stored for a fresh instance
record (`module.id`) is the module's location url — as the xmodule runtime
guarantees — and the module's `shared_state_key`, when present, differs
from its location url, `get_module` preserves the at-most-one-record-per-key
invariant; the cache only ever grows by the saved fresh records (no
deletion), and a record found by lookup is reused, never re-created. -/
theorem C3_unique_keys_preserved (σ : Type) (B : XModuleBehavior σ) (u : User)
    (desc : Descriptor) (c : StudentModuleCache)
    (hid : B.id = desc.locationUrl)
    (hkey : ∀ key, desc.shared_state_key = some key → key ≠ desc.locationUrl)
    (hu : UniqueKeys c) :
    UniqueKeys (get_module B u desc c).cache ∧
    (get_module B u desc c).cache = c ++ (get_module B u desc c).saves ∧
    (∀ m, smcLookup c desc.category desc.locationUrl = some m →
      (get_module B u desc c).instance_module = some m) ∧
    (∀ key m, desc.shared_state_key = some key →
      smcLookup c desc.category key = some m →
      (get_module B u desc c).shared_module = some m) := by
  refine ⟨?_, get_module_cache_append B u desc c, ?_, ?_⟩
  · cases ha : u.is_authenticated with
    | false =>
      rw [get_module_not_auth B u desc c ha]
      exact hu
    | true =>
      cases hk : desc.shared_state_key with
      | none =>
        cases hI : smcLookup c desc.category desc.locationUrl with
        | some m =>
          simp only [get_module, hk, ha, hI, if_true]
          exact hu
        | none =>
          simp only [get_module, hk, ha, hI, if_true]
          apply uniqueKeys_append_single c _ hu
          intro a hac
          have := smcLookup_none_keys c desc.category desc.locationUrl hI a hac
          simpa [recordKey, hid] using this
      | some key =>
        have hkl : key ≠ desc.locationUrl := hkey key hk
        cases hI : smcLookup c desc.category desc.locationUrl with
        | some m =>
          cases hS : smcLookup c desc.category key with
          | some m2 =>
            simp only [get_module, hk, ha, hI, hS, if_true]
            exact hu
          | none =>
            simp only [get_module, hk, ha, hI, hS, if_true]
            apply uniqueKeys_append_single c _ hu
            intro a hac
            have := smcLookup_none_keys c desc.category key hS a hac
            simpa [recordKey] using this
        | none =>
          cases hS : smcLookup c desc.category key with
          | some m2 =>
            simp only [get_module, hk, ha, hI, hS, if_true]
            apply uniqueKeys_append_single c _ hu
            intro a hac
            have := smcLookup_none_keys c desc.category desc.locationUrl hI a hac
            simpa [recordKey, hid] using this
          | none =>
            simp only [get_module, hk, ha, hI, hS, if_true]
            apply uniqueKeys_append_single
            · apply uniqueKeys_append_single c _ hu
              intro a hac
              have := smcLookup_none_keys c desc.category desc.locationUrl hI a hac
              simpa [recordKey, hid] using this
            · intro a hac
              rw [List.mem_append] at hac
              cases hac with
              | inl hac =>
                have := smcLookup_none_keys c desc.category key hS a hac
                simpa [recordKey] using this
              | inr hac =>
                simp only [List.mem_singleton] at hac
                subst hac
                intro heq
                have h2 : B.id = key := congrArg Prod.snd heq
                exact hkl (h2.symm.trans hid)
  · intro m hI
    exact get_module_inst_found B u desc c m hI
  · intro key m hk hS
    exact get_module_shared_found B u desc c key m hk hS

/-- Claim C7 (amended): `xqueue_callback` looks the record up in a cache
holding the `userid` student's records, so a pre-existing target record —
the per-module record of the student identified by the callback URL's
`userid` — is the one loaded, forwarded and persisted; but when no such
record exists, the record created and persisted belongs to the request's
authenticated user, not the `userid` student. -/
theorem C7_target_record (σ : Type) (B : XModuleBehavior σ)
    (pj : String → Option (List (String × String)))
    (users : Nat → Option User) (db : Nat → StudentModuleCache)
    (ru : User) (uid : Nat) (d : String) (desc : Descriptor)
    (post : List (String × String)) (r : XqueueOk σ) (tu : User)
    (im0 : StudentModule)
    (husers : users uid = some tu)
    (hdb : ∀ m ∈ db tu.id, m.student = tu.id)
    (h : (xqueue_callback B pj users db ru uid d desc post).outcome =
      Except.ok r) :
    (smcLookup (db tu.id) desc.category desc.locationUrl = some im0 →
      r.oldgrade = im0.grade ∧ r.old_instance_state = im0.state ∧
        r.instance_module.student = tu.id ∧
        r.instance_module.module_state_key = im0.module_state_key) ∧
    (smcLookup (db tu.id) desc.category desc.locationUrl = none →
      ru.is_authenticated = true →
      r.instance_module.student = ru.id) := by
  obtain ⟨hv, g1, header, tu2, im, qk, ret, m2, hpop, hparse, husers2, hI, hqk, hA,
    hb, har, hog, hos, him, hma, hsaves⟩ :=
    xqueue_callback_ok_inv B pj users db ru uid d desc post r h
  rw [husers] at husers2
  obtain rfl := Option.some.injEq .. ▸ husers2
  constructor
  · intro hfound
    have hI2 := get_module_inst_found B ru desc (db tu.id) im0 hfound
    rw [hI] at hI2
    obtain rfl := Option.some.injEq .. ▸ hI2
    refine ⟨hog, hos, ?_, ?_⟩
    · rw [him, (save_state_back_fixed B m2 im).1]
      exact hdb im (smcLookup_mem (db tu.id) desc.category desc.locationUrl im hfound)
    · rw [him, (save_state_back_fixed B m2 im).2.2.1]
  · intro hnone hauth
    have hI2 := (get_module_inst_created B ru desc (db tu.id) hauth hnone).1
    rw [hI] at hI2
    obtain rfl := Option.some.injEq .. ▸ hI2
    rw [him, (save_state_back_fixed B m2 _).1]
    rfl

/-- A concrete xmodule behaviour with no score, used in concrete runs. -/
def unitBehavior : XModuleBehavior Unit :=
  { init := fun _ _ => (),
    id := "i4x://c/p/L",
    get_instance_state := fun _ => "istate",
    get_shared_state := fun _ => "sstate",
    get_score := fun _ => none,
    max_score := fun _ => none,
    handle_ajax := fun _ d _ => Except.ok ("ajax:" ++ d, ()) }

/-- A concrete xmodule behaviour that reports a score of 3 out of 5. -/
def scoreBehavior : XModuleBehavior Unit :=
  { init := fun _ _ => (),
    id := "i4x://c/p/L",
    get_instance_state := fun _ => "istate2",
    get_shared_state := fun _ => "sstate2",
    get_score := fun _ => some { score := 3, total := 5 },
    max_score := fun _ => some 5,
    handle_ajax := fun _ d _ => Except.ok ("ajax:" ++ d, ()) }

/-- A concrete xmodule behaviour whose `handle_ajax` raises. -/
def failBehavior : XModuleBehavior Unit :=
  { unitBehavior with handle_ajax := fun _ _ _ => Except.error "boom" }

def studentOne : User := { id := 1, is_authenticated := true }

def studentTwo : User := { id := 2, is_authenticated := true }

def guestUser : User := { id := 0, is_authenticated := false }

def demoDesc : Descriptor :=
  { category := "problem", locationUrl := "i4x://c/p/L",
    shared_state_key := none }

def demoDescShared : Descriptor :=
  { category := "problem", locationUrl := "i4x://c/p/L",
    shared_state_key := some "sharedK" }

/-- A descriptor whose `shared_state_key` collides with its location url. -/
def collidingDesc : Descriptor :=
  { category := "problem", locationUrl := "i4x://c/p/L",
    shared_state_key := some "i4x://c/p/L" }

def demoRecord : StudentModule :=
  { student := 1, module_type := "problem",
    module_state_key := "i4x://c/p/L", state := some "old",
    grade := none, max_grade := some 5 }

def demoParse : String → Option (List (String × String)) :=
  fun s => if s = "HDR" then some [("queuekey", "qk1")] else none

def demoUsers : Nat → Option User :=
  fun n => if n = 1 then some studentOne else none

def demoPost : List (String × String) := [("xqueue_header", "HDR")]

def emptyDb : Nat → StudentModuleCache := fun _ => []

def demoDb : Nat → StudentModuleCache :=
  fun n => if n = 1 then [demoRecord] else []

/-- Claim C3 counterexample: with a `shared_state_key` equal to the module's
location url and an authenticated user with no records, `get_module` first
creates the instance record and then — testing the shared lookup made
before that creation — also creates a shared record with the very same
`(module_type, module_state_key)`, so the unique-key invariant is broken by
one call even though it held before. -/
theorem C3_counterexample :
    UniqueKeys ([] : StudentModuleCache) ∧
    ¬ UniqueKeys ((get_module unitBehavior studentOne collidingDesc []).cache) := by
  constructor
  · exact List.Pairwise.nil
  · intro h
    have hc : (get_module unitBehavior studentOne collidingDesc []).cache =
        [{ student := 1, module_type := "problem",
           module_state_key := "i4x://c/p/L", state := some "istate",
           grade := none, max_grade := none },
         { student := 1, module_type := "problem",
           module_state_key := "i4x://c/p/L", state := some "sstate",
           grade := none, max_grade := none }] := rfl
    unfold UniqueKeys at h
    rw [hc] at h
    have h1 := (List.pairwise_cons.mp h).1
      { student := 1, module_type := "problem",
        module_state_key := "i4x://c/p/L", state := some "sstate",
        grade := none, max_grade := none } (by simp)
    exact h1 rfl

/-- Claim C7 counterexample: the callback for `userid = 1` arrives on a
request authenticated as student 2; student 1 has no record yet, so
`get_module` — called with `request.user`, not the fetched target user —
creates and persists a record belonging to student 2: the record loaded and
saved is not the per-module record of the student named by the URL. -/
theorem C7_counterexample :
    (xqueue_callback unitBehavior demoParse demoUsers emptyDb studentTwo 1
        "score_update" demoDesc demoPost).saves =
      [{ student := 2, module_type := "problem",
         module_state_key := "i4x://c/p/L", state := some "istate",
         grade := none, max_grade := none }] ∧
    (match (xqueue_callback unitBehavior demoParse demoUsers emptyDb studentTwo 1
        "score_update" demoDesc demoPost).outcome with
      | Except.ok r => some r.instance_module.student
      | Except.error _ => none) = some 2 ∧
    studentTwo.id ≠ 1 ∧ demoUsers 1 = some studentOne ∧ studentOne.id = 1 := by
  exact ⟨rfl, rfl, by decide, rfl, rfl⟩

def c1ok : ModxOk Unit :=
  { body := "ajax:check", ajaxReturn := "ajax:check", dispatched := "check",
    oldgrade := none, old_instance_state := some "old",
    old_shared_state := none,
    instance_module :=
      { student := 1, module_type := "problem",
        module_state_key := "i4x://c/p/L", state := some "istate2",
        grade := some 3, max_grade := some 5 },
    instanceSaved := true, shared_module := none, sharedSaved := false,
    moduleAfter := () }

theorem C1_witness :
    (modx_dispatch scoreBehavior studentOne [] "check?x=1" demoDesc
      [demoRecord]).outcome = Except.ok c1ok ∧
    c1ok.instance_module.state =
      some (scoreBehavior.get_instance_state c1ok.moduleAfter) ∧
    c1ok.instance_module.grade = some 3 ∧
    (modx_dispatch scoreBehavior studentOne [] "check?x=1" demoDesc
      [demoRecord]).saves =
      (get_module scoreBehavior studentOne demoDesc [demoRecord]).saves ++
        [c1ok.instance_module] := by
  have h := C1_save_iff_changed.1 Unit scoreBehavior studentOne [] "check?x=1"
    demoDesc [demoRecord] c1ok rfl
  refine ⟨rfl, h.2.1, ?_, ?_⟩
  · exact h.2.2.1 { score := 3, total := 5 } rfl
  · rw [h.2.2.2.2.1]
    rfl

theorem C2_witness :
    studentOne.is_authenticated = true ∧
    smcLookup [] demoDesc.category demoDesc.locationUrl = none ∧
    (get_module unitBehavior studentOne demoDesc []).instance_module =
      some (freshInstanceRecord unitBehavior studentOne demoDesc
        (builtModule unitBehavior demoDesc [])) := by
  refine ⟨rfl, rfl, ?_⟩
  exact ((C2_lazy_record_creation Unit unitBehavior studentOne demoDesc []).1
    rfl rfl).1

theorem C3_witness :
    unitBehavior.id = demoDescShared.locationUrl ∧
    UniqueKeys ([] : StudentModuleCache) ∧
    UniqueKeys ((get_module unitBehavior studentOne demoDescShared []).cache) := by
  refine ⟨rfl, List.Pairwise.nil, ?_⟩
  refine (C3_unique_keys_preserved Unit unitBehavior studentOne demoDescShared []
    rfl ?_ List.Pairwise.nil).1
  intro key hk
  have h2 : some "sharedK" = some key := hk
  injection h2 with h3
  subst h3
  decide

theorem C4_witness :
    (get_module unitBehavior guestUser demoDesc []).instance_module = none ∧
    modx_dispatch unitBehavior guestUser [] "x" demoDesc [] =
      { saves := [], logs := ["Could not find module for user"],
        outcome := Except.error ViewError.http404 } := by
  refine ⟨rfl, ?_⟩
  exact (C4_missing_record_404.1 Unit unitBehavior guestUser [] "x" demoDesc []).1
    rfl

theorem C5_witness :
    (get_module failBehavior studentOne demoDesc [demoRecord]).instance_module =
      some demoRecord ∧
    failBehavior.handle_ajax
        (get_module failBehavior studentOne demoDesc [demoRecord]).module
        ((strPartition "x" '?').1) [] = Except.error "boom" ∧
    modx_dispatch failBehavior studentOne [] "x" demoDesc [demoRecord] =
      { saves := [], logs := ["error processing ajax call"],
        outcome := Except.error (ViewError.ajaxError "boom") } := by
  refine ⟨rfl, rfl, ?_⟩
  exact C5_ajax_exception_reraised.1 Unit failBehavior studentOne [] "x" demoDesc
    [demoRecord] demoRecord "boom" rfl rfl

def xqOkRecord : XqueueOk Unit :=
  { body := "", ajaxReturn := "ajax:score_update",
    oldgrade := none, old_instance_state := some "old",
    instance_module :=
      { student := 1, module_type := "problem",
        module_state_key := "i4x://c/p/L", state := some "istate2",
        grade := some 3, max_grade := some 5 },
    instanceSaved := true, shared_module := none, moduleAfter := () }

theorem C7_witness :
    demoUsers 1 = some studentOne ∧
    (∀ m ∈ demoDb studentOne.id, m.student = studentOne.id) ∧
    smcLookup (demoDb studentOne.id) demoDesc.category demoDesc.locationUrl =
      some demoRecord ∧
    (xqueue_callback scoreBehavior demoParse demoUsers demoDb studentOne 1
      "score_update" demoDesc demoPost).outcome = Except.ok xqOkRecord ∧
    xqOkRecord.instance_module.student = studentOne.id := by
  refine ⟨rfl, by decide, rfl, rfl, ?_⟩
  exact ((C7_target_record Unit scoreBehavior demoParse demoUsers demoDb
    studentOne 1 "score_update" demoDesc demoPost xqOkRecord studentOne demoRecord
    rfl (by decide) rfl).1 rfl).2.2.1

def hiddenCourse : XTree :=
  XTree.mk [] [XTree.mk [("display_name", "hidden")]
    [XTree.mk [("display_name", "s1"), ("format", "lecture")] []]]

theorem C8_witness :
    (toc_for_course hiddenCourse "hidden" "s1").length =
      (get_display_items hiddenCourse).length ∧
    ((toc_for_course hiddenCourse "hidden" "s1").get ⟨0, by decide⟩).name =
      some "hidden" ∧
    ((toc_for_course hiddenCourse "hidden" "s1").get ⟨0, by decide⟩).active =
      true ∧
    (((toc_for_course hiddenCourse "hidden" "s1").get ⟨0, by decide⟩).sections.get
      ⟨0, by decide⟩).active = true := by
  have h := C8_toc_active_flags hiddenCourse "hidden" "s1"
  have h2 := h.2 0 (by decide) (by decide)
  refine ⟨h.1, ?_, ?_, ?_⟩
  · exact h2.1
  · exact h2.2.1.mpr rfl
  · exact (h2.2.2.2 0 (by decide) (by decide)).2.mpr ⟨rfl, rfl⟩

def c9ok : ModxOk Unit :=
  { body := "ajax:problem_reset", ajaxReturn := "ajax:problem_reset",
    dispatched := "problem_reset",
    oldgrade := none, old_instance_state := some "old",
    old_shared_state := none,
    instance_module :=
      { student := 1, module_type := "problem",
        module_state_key := "i4x://c/p/L", state := some "istate2",
        grade := some 3, max_grade := some 5 },
    instanceSaved := true, shared_module := none, sharedSaved := false,
    moduleAfter := () }

theorem C9_witness :
    modx_dispatch scoreBehavior studentOne [] "problem_reset?question=7" demoDesc
        [demoRecord] =
      modx_dispatch scoreBehavior studentOne [] "problem_reset" demoDesc
        [demoRecord] ∧
    (modx_dispatch scoreBehavior studentOne [] "problem_reset?question=7" demoDesc
      [demoRecord]).outcome = Except.ok c9ok ∧
    c9ok.dispatched = "problem_reset" ∧
    '?' ∉ c9ok.dispatched.data := by
  have h := C9_dispatch_partition Unit scoreBehavior studentOne []
    "problem_reset?question=7" demoDesc [demoRecord] c9ok
  refine ⟨h.1, rfl, ?_, ?_⟩
  · exact (h.2 rfl).1
  · exact (h.2 rfl).2.1

theorem C10_witness :
    (modx_dispatch scoreBehavior studentOne [] "check?x=1" demoDesc
      [demoRecord]).outcome = Except.ok c1ok ∧
    c1ok.body = c1ok.ajaxReturn ∧
    (xqueue_callback scoreBehavior demoParse demoUsers demoDb studentOne 1
      "score_update" demoDesc demoPost).outcome = Except.ok xqOkRecord ∧
    xqOkRecord.body = "" := by
  refine ⟨rfl, ?_, rfl, ?_⟩
  · exact (C10_response_bodies.1 Unit scoreBehavior studentOne [] "check?x=1"
      demoDesc [demoRecord] c1ok rfl).1
  · exact (C10_response_bodies.2 Unit scoreBehavior demoParse demoUsers demoDb
      studentOne 1 "score_update" demoDesc demoPost xqOkRecord rfl).1
